import Mathlib

/-!
Verification development for the interactive-ina11y screen-reader simulator.

The DOM is modelled shallowly: an element carries its tag name (uppercase, as
`tagName` does), its attribute list, and the IDL properties the source reads
(`checked`, `value`, `selected`, constraint-validation state).  CSS visibility
(`checkVisibility`) is an oracle bit per element, since computed style belongs
to the external document collaborator.  Element identity (JS reference
equality, used by `Set.has`, `indexOf` and `getElementById`) is modelled by a
`ref` tag carried on each element; documents are assumed to give distinct
elements distinct refs.
-/

namespace Dom

/-- IDL-level data of one element.  `visible` is the `checkVisibility` oracle;
`willValidate`/`validity`/`validationMessage` model the constraint-validation
API surface the source reads. -/
structure ElemData where
  ref : Nat := 0
  tag : String := "DIV"
  attrs : List (String × String) := []
  checked : Bool := false
  selected : Bool := false
  ival : String := ""
  visible : Bool := true
  willValidate : Bool := false
  validity : Bool := true
  validationMessage : String := ""
  deriving Repr, DecidableEq

/-- A DOM node: a text node or an element with children. -/
inductive DNode : Type where
  | text (s : String) : DNode
  | elem (data : ElemData) (children : List DNode) : DNode
  deriving Repr

/-- `getAttribute`: `none` models a null return. -/
def getAttr (n : DNode) (a : String) : Option String :=
  match n with
  | .text _ => none
  | .elem d _ => (d.attrs.find? (fun p => p.1 == a)).map (fun p => p.2)

/-- `tagName` (empty for text nodes). -/
def tagOf (n : DNode) : String :=
  match n with
  | .text _ => ""
  | .elem d _ => d.tag

/-- The element-identity tag (JS reference identity). -/
def refOf (n : DNode) : Nat :=
  match n with
  | .text _ => 0
  | .elem d _ => d.ref

def childrenOf (n : DNode) : List DNode :=
  match n with
  | .text _ => []
  | .elem _ cs => cs

def dataOf (n : DNode) : ElemData :=
  match n with
  | .text _ => {}
  | .elem d _ => d

/-- JS truthiness of a `getAttribute` result: non-null and non-empty. -/
def truthy (o : Option String) : Bool :=
  match o with
  | none => false
  | some s => s != ""

/-- `a || b` on nullable strings (empty string is falsy). -/
def jsOrS (a b : Option String) : Option String :=
  if truthy a then a else b

/-- Attribute presence (for boolean reflected IDL properties). -/
def hasAttr (n : DNode) (a : String) : Bool :=
  (getAttr n a).isSome

/-- Split a character list at separator characters (empty chunks kept), the
character-level core of a regex split. -/
def splitChars (p : Char → Bool) : List Char → List (List Char)
  | [] => [[]]
  | c :: cs =>
      let r := splitChars p cs
      if p c then [] :: r
      else
        match r with
        | [] => [[c]]
        | w :: ws => (c :: w) :: ws

/-- A structurally recursive string split (the model of `split(/sep/)`). -/
def splitP (s : String) (p : Char → Bool) : List String :=
  (splitChars p s.toList).map String.mk

/-- A structurally recursive whitespace trim (the model of JS `trim()`). -/
def jsTrim (s : String) : String :=
  String.mk
    (((s.toList.dropWhile Char.isWhitespace).reverse.dropWhile
        Char.isWhitespace).reverse)

/-- A structurally recursive lowercasing (the model of `toLowerCase()`). -/
def lowerStr (s : String) : String :=
  String.mk (s.toList.map Char.toLower)

/-- A structurally recursive character drop (the model of `substring(n)`). -/
def strDrop (s : String) (n : Nat) : String :=
  String.mk (s.toList.drop n)

mutual
/-- `Node.textContent` of an element or text node. -/
def textContent : DNode → String
  | .text s => s
  | .elem _ cs => textContentL cs
def textContentL : List DNode → String
  | [] => ""
  | c :: cs => textContent c ++ textContentL cs
end

mutual
/-- All element nodes of a subtree in document (pre-)order, root included. -/
def allElems : DNode → List DNode
  | .text _ => []
  | .elem d cs => .elem d cs :: allElemsL cs
def allElemsL : List DNode → List DNode
  | [] => []
  | c :: cs => allElems c ++ allElemsL cs
end

/-- Element descendants of a node (itself excluded), in document order. -/
def descendants (n : DNode) : List DNode :=
  allElemsL (childrenOf n)

/-- `document.getElementById`: the first element in document order whose `id`
attribute equals `i`. -/
def getElementById (doc : DNode) (i : String) : Option DNode :=
  (allElems doc).find? (fun e => getAttr e "id" == some i)

/-- Collapse every maximal whitespace run to one space (the effect of
`replace(/\s+/g, " ")` composed with `trim()`, in either order). -/
def collapseWS (s : String) : String :=
  String.intercalate " " ((splitP s Char.isWhitespace).filter (fun w => w != ""))

/-- `replace(/\s+/g, " ")` alone (no trimming). -/
def squashWS (s : String) : String :=
  String.mk ((s.toList.foldl (fun (acc : List Char × Bool) c =>
    if c.isWhitespace then
      (if acc.2 then acc.1 else ' ' :: acc.1, true)
    else (c :: acc.1, false)) ([], false)).1.reverse)

/-- Substring test, the effect of a fixed-literal regex `test`. -/
def containsSub (hay needle : String) : Bool :=
  hay.toList.tails.any (fun t => needle.toList.isPrefixOf t)

/-- `parseInt(s, 10)`: optional sign then a digit prefix; `none` models NaN. -/
def parseIntJS (s : String) : Option Int :=
  let t := s.toList.dropWhile Char.isWhitespace
  let (sign, u) : Int × List Char :=
    match t with
    | '-' :: rest => (-1, rest)
    | '+' :: rest => (1, rest)
    | _ => (1, t)
  let ds := u.takeWhile Char.isDigit
  if ds.isEmpty then none
  else some (sign * (ds.foldl (fun a c => a * 10 + (c.toNat - 48)) 0 : Nat))

/-- Decimal literal to an exact rational; `none` models NaN.  (Exponent and
hexadecimal forms of JS number syntax are not used by this codebase.) -/
def parseDecimal (t : String) : Option ℚ :=
  let (sign, u) : ℚ × List Char :=
    match t.toList with
    | '-' :: rest => (-1, rest)
    | '+' :: rest => (1, rest)
    | cs => (1, cs)
  let natVal : List Char → ℚ := fun a =>
    ((a.foldl (fun n c => n * 10 + (c.toNat - 48)) 0 : Nat) : ℚ)
  match splitChars (fun c => c == '.') u with
  | [a] =>
      if !a.isEmpty && a.all Char.isDigit then some (sign * natVal a) else none
  | [a, b] =>
      if (!a.isEmpty || !b.isEmpty) && a.all Char.isDigit
          && b.all Char.isDigit then
        some (sign * (natVal a + natVal b / ((10 : ℚ) ^ b.length)))
      else none
  | _ => none

/-- `Number(x)` on a nullable attribute string; `none` models NaN.
`Number(null) = 0` and `Number("") = 0`. -/
def jsNumber (o : Option String) : Option ℚ :=
  match o with
  | none => some 0
  | some s =>
      let t := jsTrim s
      if t = "" then some 0 else parseDecimal t

/-- The `Number(attr) || d` idiom: NaN and 0 both fall back to the default. -/
def numOr (o : Option String) (d : ℚ) : ℚ :=
  match jsNumber o with
  | none => d
  | some q => if q = 0 then d else q

/-- `Math.round`: round half toward positive infinity. -/
def jsRound (q : ℚ) : ℤ := ⌊q + 1 / 2⌋

/-- The `type` IDL property of an `<input>`: the reflected attribute,
lowercased, with unknown values defaulting to "text". -/
def inputType (n : DNode) : String :=
  let known := ["text", "checkbox", "radio", "range", "number", "password",
    "submit", "hidden", "email", "tel", "url", "search", "button", "reset",
    "date", "file", "color"]
  match getAttr n "type" with
  | none => "text"
  | some t => if known.contains (lowerStr t) then lowerStr t else "text"

/-- The `type` IDL property as read through an `HTMLInputElement` cast:
empty string models `undefined` for elements that have no such property. -/
def jsTypeOf (n : DNode) : String :=
  if tagOf n == "INPUT" then inputType n
  else if tagOf n == "TEXTAREA" then "textarea"
  else if tagOf n == "SELECT" then "select-one"
  else if tagOf n == "BUTTON" then lowerStr ((getAttr n "type").getD "submit")
  else ""

/-- The `value` IDL property through an `HTMLInputElement` cast; `none`
models `undefined` on elements without the property. -/
def valueProp (n : DNode) : Option String :=
  if ["INPUT", "TEXTAREA", "SELECT", "OPTION", "BUTTON"].contains (tagOf n) then
    some (dataOf n).ival
  else none

/-- The `checked` IDL property (`undefined` outside inputs). -/
def checkedProp (n : DNode) : Option Bool :=
  if tagOf n == "INPUT" then some (dataOf n).checked else none

/-- Tags whose interface carries a `disabled` IDL property. -/
def disableableTags : List String :=
  ["BUTTON", "INPUT", "SELECT", "TEXTAREA", "OPTGROUP", "OPTION", "FIELDSET"]

/-- `el.disabled` read through a cast: attribute reflection, `undefined`
(falsy) outside the disableable interfaces. -/
def disabledProp (n : DNode) : Bool :=
  disableableTags.contains (tagOf n) && hasAttr n "disabled"

/-- `el.required` through a cast (input/select/textarea only). -/
def requiredProp (n : DNode) : Bool :=
  ["INPUT", "SELECT", "TEXTAREA"].contains (tagOf n) && hasAttr n "required"

/-- `el.readOnly` through a cast (input/textarea only). -/
def readOnlyProp (n : DNode) : Bool :=
  ["INPUT", "TEXTAREA"].contains (tagOf n) && hasAttr n "readonly"

/-- Default `tabIndex` IDL value: 0 for natively interactive elements,
-1 otherwise. -/
def defaultTabIndex (n : DNode) : Int :=
  if ["BUTTON", "INPUT", "SELECT", "TEXTAREA"].contains (tagOf n)
      || (tagOf n == "A" && hasAttr n "href") then 0 else -1

/-- `el.tabIndex`: the parsed attribute when present and numeric, else the
tag-dependent default. -/
def tabIndexOf (n : DNode) : Int :=
  match getAttr n "tabindex" with
  | none => defaultTabIndex n
  | some s => (parseIntJS s).getD (defaultTabIndex n)

/-- HTML labelable elements (association targets of `<label>`). -/
def labelable (n : DNode) : Bool :=
  (["BUTTON", "INPUT", "METER", "OUTPUT", "PROGRESS", "SELECT",
      "TEXTAREA"].contains (tagOf n))
    && !(tagOf n == "INPUT" && inputType n == "hidden")

/-- The labeled control of a `<label>`: the element referenced by `for` when
present (if labelable), else the first labelable descendant. -/
def labeledControl (doc l : DNode) : Option DNode :=
  match getAttr l "for" with
  | some i =>
      match getElementById doc i with
      | some t => if labelable t then some t else none
      | none => none
  | none => (descendants l).find? labelable

/-- The `labels` IDL collection of a form control: every `<label>` in the
document whose labeled control is this element. -/
def labelsOf (doc e : DNode) : List DNode :=
  (allElems doc).filter (fun l =>
    tagOf l == "LABEL"
      && ((labeledControl doc l).map refOf == some (refOf e)))

/-- Interfaces that expose a `labels` collection (the runtime meaning of the
source's `"labels" in el` probe). -/
def hasLabelsProp (n : DNode) : Bool :=
  (["INPUT", "BUTTON", "SELECT", "TEXTAREA", "METER", "OUTPUT",
      "PROGRESS"].contains (tagOf n))

end Dom

/-!
Embedding of `src/utils/utils.ts` (the classifier revision exporting
`computeAccName`, `computeRole`, `getSafeText`, `getSubtreeName`,
`computeStates`): namespace `U`.
-/

namespace U

open Dom

/-- `collapse`: collapse whitespace runs and trim. -/
def collapse (s : String) : String := collapseWS s

/-- `byIdText`: `document.getElementById(id)?.textContent?.trim() || ""`. -/
def byIdText (doc : DNode) (i : String) : String :=
  match getElementById doc i with
  | some e => jsTrim (textContent e)
  | none => ""

/-- `isFocusable` (classifier revision: no disabled check). -/
def isFocusable (el : DNode) : Bool :=
  if tabIndexOf el ≥ 0 then true
  else
    let t := lowerStr (tagOf el)
    if t == "a" && hasAttr el "href" then true
    else ["button", "input", "select", "textarea"].contains t

/-- `isDisableable`: the union of the disableable element interfaces. -/
def isDisableable (el : DNode) : Bool :=
  disableableTags.contains (tagOf el)

/-- The `CANDIDATE_SELECTOR` membership test (`el.matches`). -/
def candidateMatch (n : DNode) : Bool :=
  let t := tagOf n
  (t == "A" && hasAttr n "href")
    || ["BUTTON", "INPUT", "SELECT", "TEXTAREA"].contains t
    || (hasAttr n "tabindex" && getAttr n "tabindex" != some "-1")
    || ["H1", "H2", "H3", "H4", "H5", "H6"].contains t
    || hasAttr n "role"
    || ["TABLE", "TH", "TD"].contains t
    || ["IMG", "SVG"].contains t
    || ["NAV", "MAIN", "HEADER", "FOOTER", "ASIDE", "FORM"].contains t
    || (t == "SECTION" && (hasAttr n "aria-label" || hasAttr n "aria-labelledby"))
    || ["PROGRESS", "METER", "OUTPUT", "DIALOG"].contains t
    || hasAttr n "aria-live"
    || ["P", "DIV", "ARTICLE", "FIGURE", "ADDRESS", "BLOCKQUOTE", "PRE"].contains t

mutual
/-- `getSafeText`: direct text plus text of non-candidate element children,
skipping script/style/noscript and hidden children; each level trims. -/
def getSafeText : DNode → String
  | .text _ => ""
  | .elem _ cs => jsTrim (getSafeTextL cs)
/-- The child-accumulation loop of `getSafeText`. -/
def getSafeTextL : List DNode → String
  | [] => ""
  | .text s :: rest => squashWS s ++ getSafeTextL rest
  | .elem d cs :: rest =>
      (if ["SCRIPT", "STYLE", "NOSCRIPT"].contains d.tag then ""
       else if hasAttr (.elem d cs) "hidden"
           || getAttr (.elem d cs) "aria-hidden" == some "true" then ""
       else if candidateMatch (.elem d cs) then ""
       else getSafeText (.elem d cs)) ++ getSafeTextL rest
end

/-- `NAME_FROM_CONTENT_ROLES`. -/
def NAME_FROM_CONTENT_ROLES : List String :=
  ["button", "link", "heading", "tab", "menuitem", "option", "treeitem",
   "listitem", "cell", "gridcell", "columnheader", "rowheader", "tooltip",
   "switch", "checkbox", "radio button", "dialog", "alert", "alertdialog",
   "status", "progressbar", "meter", "image", "statictext"]

mutual
/-- `getSubtreeName`: recursive text accumulation substituting an image
child's `alt` for the image; no other child is skipped. -/
def getSubtreeName : DNode → String
  | .text s => s
  | .elem _ cs => getSubtreeNameL cs
/-- The child-accumulation loop of `getSubtreeName`. -/
def getSubtreeNameL : List DNode → String
  | [] => ""
  | .text s :: rest => s ++ getSubtreeNameL rest
  | .elem d cs :: rest =>
      (if d.tag == "IMG" then (getAttr (.elem d cs) "alt").getD ""
       else getSubtreeName (.elem d cs)) ++ getSubtreeNameL rest
end

/-- The native-mapping tail of `computeRole` (everything after the explicit
role handling). -/
def computeRoleNative (el : DNode) : String :=
  let tag := lowerStr (tagOf el)
  if tag == "a" && hasAttr el "href" then "link"
  else if tag == "button" then "button"
  else if ["h1", "h2", "h3", "h4", "h5", "h6"].contains tag then "heading"
  else if tag == "img" || tag == "svg" then "image"
  else if tag == "input" then
    let t := inputType el
    if t == "checkbox" then "checkbox"
    else if t == "radio" then "radio button"
    else if t == "range" then "slider"
    else if t == "number" then "spinbutton"
    else "textbox"
  else if tag == "textarea" then "textbox"
  else if tag == "select" then "combobox"
  else if tag == "table" then "table"
  else if tag == "nav" then "navigation"
  else if tag == "main" then "main"
  else if tag == "header" then "banner"
  else if tag == "footer" then "contentinfo"
  else if tag == "aside" then "complementary"
  else if tag == "form" then "form"
  else if tag == "progress" then "progressbar"
  else if tag == "meter" then "meter"
  else if tag == "dialog" then "dialog"
  else if ["strong", "b", "em", "mark", "small"].contains tag then "statictext"
  else if !isFocusable el then (if getSafeText el != "" then "statictext" else "")
  else ""

/-- `computeRole`: explicit role (with the presentation/none conflict rule),
else the native mapping. -/
def computeRole (el : DNode) : String :=
  let explicit := (getAttr el "role").map lowerStr
  if explicit == some "presentation" || explicit == some "none" then
    if isFocusable el then computeRoleNative el else ""
  else if truthy explicit then explicit.getD ""
  else computeRoleNative el

/-- `computeAccName`: aria-label, aria-labelledby, image alt, native labels,
then role-based content names (with 140-character truncation in the
content branches only).  The `split(/\s+/)` of the source differs from the
character-wise split only by empty fragments, which `collapse` erases. -/
def computeAccName (doc el : DNode) : String :=
  let ariaLabel := getAttr el "aria-label"
  if truthy ariaLabel then jsTrim (ariaLabel.getD "")
  else
    let labelledby := getAttr el "aria-labelledby"
    if truthy labelledby then
      collapse (String.intercalate " "
        ((splitP (labelledby.getD "") Char.isWhitespace).map (byIdText doc)))
    else if tagOf el == "IMG" && truthy (getAttr el "alt") then
      jsTrim ((getAttr el "alt").getD "")
    else if hasLabelsProp el && (labelsOf doc el).length != 0 then
      collapse (String.intercalate " " ((labelsOf doc el).map textContent))
    else
      let role := computeRole el
      let fromContent : String :=
        if NAME_FROM_CONTENT_ROLES.contains role || role == "textbox"
            || role == "combobox" then
          let t := collapse (getSubtreeName el)
          if t != "" then
            (if t.length > 140 then String.mk (t.toList.take 140) ++ "…" else t)
          else ""
        else ""
      if role == "statictext" then
        let own := getSafeText el
        if own != "" then
          (if own.length > 140 then String.mk (own.toList.take 140) ++ "…"
           else own)
        else fromContent
      else fromContent

/-- `computeStates` (classifier revision, one argument). -/
def computeStates (el : DNode) : List String :=
  let attr := fun a => getAttr el a
  let s1 : List String :=
    if attr "aria-disabled" == some "true"
        || (isDisableable el && disabledProp el) then ["disabled"] else []
  let s2 : List String :=
    if (attr "aria-checked").isSome then
      [if attr "aria-checked" == some "true" then "checked" else "unchecked"]
    else if tagOf el == "INPUT"
        && (inputType el == "checkbox" || inputType el == "radio") then
      [if (dataOf el).checked then "checked" else "unchecked"]
    else if tagOf el == "OPTION" then
      (if (dataOf el).selected then ["selected"] else [])
    else []
  let s3 : List String :=
    if (attr "aria-pressed").isSome then
      [if attr "aria-pressed" == some "true" then "pressed" else "not pressed"]
    else []
  let s4 : List String :=
    if (attr "aria-expanded").isSome then
      [if attr "aria-expanded" == some "true" then "expanded" else "collapsed"]
    else []
  let s5 : List String :=
    if attr "aria-required" == some "true"
        || (tagOf el == "INPUT" && hasAttr el "required")
        || (tagOf el == "TEXTAREA" && hasAttr el "required")
        || (tagOf el == "SELECT" && hasAttr el "required") then ["required"]
    else []
  let s6 : List String :=
    if attr "aria-readonly" == some "true"
        || (tagOf el == "INPUT" && hasAttr el "readonly")
        || (tagOf el == "TEXTAREA" && hasAttr el "readonly") then ["readonly"]
    else []
  s1 ++ s2 ++ s3 ++ s4 ++ s5 ++ s6

end U

/-!
The collector revision and `src/utils/a11y-engine.ts` call `getRole`,
`computeAccessibleName` and `computeAccessibleDescription` from the external
`dom-accessibility-api` package, which is not part of this repository; these
are modelled from the spec (§4.1) in namespace `Lib`.
-/

namespace Lib

open Dom

/-- Modelled from the spec: independent focusability ("by tab order or native
interactivity, accounting for disabled state", §4.2), used by the role
conflict rule of §4.1. -/
def focusableForRole (n : DNode) : Bool :=
  tabIndexOf n ≥ 0
    || (["BUTTON", "INPUT", "SELECT", "TEXTAREA"].contains (tagOf n)
        && !disabledProp n)
    || (tagOf n == "A" && hasAttr n "href")

/-- Modelled from the spec: the native-tag-to-role mapping table of §4.1
(2), in the core ARIA vocabulary that the external role computation uses. -/
def nativeRole (el : DNode) : String :=
  let tag := tagOf el
  if tag == "A" then (if hasAttr el "href" then "link" else "generic")
  else if tag == "BUTTON" then "button"
  else if ["H1", "H2", "H3", "H4", "H5", "H6"].contains tag then "heading"
  else if tag == "IMG" then "img"
  else if tag == "INPUT" then
    let t := inputType el
    if t == "checkbox" then "checkbox"
    else if t == "radio" then "radio"
    else if t == "range" then "slider"
    else if t == "number" then "spinbutton"
    else if ["submit", "button", "reset"].contains t then "button"
    else "textbox"
  else if tag == "TEXTAREA" then "textbox"
  else if tag == "SELECT" then "combobox"
  else if tag == "TABLE" then "table"
  else if tag == "TR" then "row"
  else if tag == "TD" then "cell"
  else if tag == "TH" then "columnheader"
  else if tag == "NAV" then "navigation"
  else if tag == "MAIN" then "main"
  else if tag == "HEADER" then "banner"
  else if tag == "FOOTER" then "contentinfo"
  else if tag == "ASIDE" then "complementary"
  else if tag == "FORM" then "form"
  else if tag == "PROGRESS" then "progressbar"
  else if tag == "METER" then "meter"
  else if tag == "DIALOG" then "dialog"
  else if tag == "UL" || tag == "OL" then "list"
  else if tag == "LI" then "listitem"
  else if tag == "OPTION" then "option"
  else if tag == "P" then "paragraph"
  else if ["DIV", "SPAN", "SECTION", "B", "I", "PRE"].contains tag then "generic"
  else ""

/-- Modelled from the spec: the role computation of the external
`dom-accessibility-api` dependency, per the §4.1 resolution order — an
explicit authored role wins unless it is presentation/none on a
non-focusable element (then the role is empty); otherwise the native
mapping applies.  An empty string models a null role. -/
def getRole (el : DNode) : String :=
  let explicit := (getAttr el "role").map lowerStr
  if explicit == some "presentation" || explicit == some "none" then
    (if focusableForRole el then nativeRole el else "")
  else if truthy explicit then explicit.getD ""
  else nativeRole el

/-- Modelled from the spec: roles "whose name is legitimately derived from
content" (§4.1), plus textbox/combobox wrapping child markup. -/
def nameFromContentRole (r : String) : Bool :=
  ["button", "link", "heading", "listitem", "cell", "gridcell",
   "columnheader", "rowheader", "tab", "dialog", "status", "alert",
   "alertdialog", "tooltip", "menuitem", "option", "treeitem", "switch",
   "checkbox", "radio", "textbox", "combobox"].contains r

mutual
/-- Modelled from the spec: the recursive name-from-subtree accumulation of
§4.1 — an image descendant contributes its alternative text, and
script/style/hidden descendants contribute nothing. -/
def nameContent : DNode → String
  | .text s => s
  | .elem _ cs => nameContentL cs
/-- The child loop of the modelled name-from-subtree accumulation. -/
def nameContentL : List DNode → String
  | [] => ""
  | .text s :: rest => s ++ nameContentL rest
  | .elem d cs :: rest =>
      (if ["SCRIPT", "STYLE", "NOSCRIPT"].contains d.tag
          || hasAttr (.elem d cs) "hidden"
          || getAttr (.elem d cs) "aria-hidden" == some "true" then ""
       else if d.tag == "IMG" then (getAttr (.elem d cs) "alt").getD ""
       else nameContent (.elem d cs)) ++ nameContentL rest
end

/-- Modelled from the spec: the accessible-name computation of the external
`dom-accessibility-api` dependency, per the §4.1 resolution order —
explicit label attribute, label by reference, native label association,
media alternative text, content for name-from-content roles, placeholder. -/
def computeAccessibleName (doc el : DNode) : String :=
  if truthy (getAttr el "aria-label") then
    jsTrim ((getAttr el "aria-label").getD "")
  else if truthy (getAttr el "aria-labelledby") then
    collapseWS (String.intercalate " "
      ((splitP ((getAttr el "aria-labelledby").getD "") Char.isWhitespace).map
        (fun i =>
          match getElementById doc i with
          | some e => textContent e
          | none => "")))
  else if hasLabelsProp el && (labelsOf doc el).length != 0 then
    collapseWS (String.intercalate " " ((labelsOf doc el).map textContent))
  else if tagOf el == "IMG" && truthy (getAttr el "alt") then
    jsTrim ((getAttr el "alt").getD "")
  else if nameFromContentRole (getRole el) then collapseWS (nameContent el)
  else if (tagOf el == "INPUT" || tagOf el == "TEXTAREA")
      && truthy (getAttr el "placeholder") then
    jsTrim ((getAttr el "placeholder").getD "")
  else ""

/-- Modelled from the spec: the accessible-description computation of the
external dependency — supplementary text resolved by reference, distinct
from the name (§3). -/
def computeAccessibleDescription (doc el : DNode) : String :=
  if truthy (getAttr el "aria-describedby") then
    collapseWS (String.intercalate " "
      ((splitP ((getAttr el "aria-describedby").getD "") Char.isWhitespace).map
        (fun i =>
          match getElementById doc i with
          | some e => textContent e
          | none => "")))
  else ""

end Lib

/-!
Embedding of `src/utils/a11y-engine.ts`: namespace `Engine`.
-/

namespace Engine

open Dom

/-- `computeStates` of the a11y-engine module. -/
def computeStates (el : DNode) : List String :=
  let attr := fun a => getAttr el a
  let role := Lib.getRole el
  let s1 : List String :=
    if attr "aria-disabled" == some "true" || disabledProp el then ["disabled"]
    else []
  let checked : Option String :=
    jsOrS (attr "aria-checked")
      ((checkedProp el).map (fun b => if b then "true" else "false"))
  let s2 : List String :=
    if checked == some "true" then ["checked"]
    else if checked == some "false" && (role == "checkbox" || role == "radio") then
      ["unchecked"]
    else if checked == some "mixed" then ["partially checked"]
    else []
  let s3 : List String :=
    (if attr "aria-pressed" == some "true" then ["pressed"] else [])
      ++ (if attr "aria-selected" == some "true" then ["selected"] else [])
  let s4 : List String :=
    (if attr "aria-expanded" == some "true" then ["expanded"] else [])
      ++ (if attr "aria-expanded" == some "false" then ["collapsed"] else [])
  let s5 : List String :=
    if attr "aria-invalid" == some "true"
        || ((dataOf el).willValidate && !(dataOf el).validity) then ["invalid"]
    else []
  let s6 : List String :=
    if role == "heading" || role == "treeitem" || role == "row" then
      match attr "aria-level" with
      | some lvl =>
          if lvl != "" then ["level " ++ lvl]
          else if role == "heading"
              && ["H1", "H2", "H3", "H4", "H5", "H6"].contains (tagOf el) then
            ["level " ++ strDrop (tagOf el) 1]
          else []
      | none =>
          if role == "heading"
              && ["H1", "H2", "H3", "H4", "H5", "H6"].contains (tagOf el) then
            ["level " ++ strDrop (tagOf el) 1]
          else []
    else []
  let s7 : List String :=
    if ["slider", "scrollbar", "separator", "tablist", "toolbar"].contains role then
      match attr "aria-orientation" with
      | some o => if o != "" then [o] else []
      | none => []
    else []
  let s8 : List String :=
    if role == "columnheader" || role == "rowheader" then
      match attr "aria-sort" with
      | some srt => if srt != "" && srt != "none" then ["sort " ++ srt] else []
      | none => []
    else []
  let s9 : List String :=
    if attr "aria-required" == some "true" || requiredProp el then ["required"]
    else []
  let s10 : List String :=
    if attr "aria-readonly" == some "true" || readOnlyProp el then ["read only"]
    else []
  s1 ++ s2 ++ s3 ++ s4 ++ s5 ++ s6 ++ s7 ++ s8 ++ s9 ++ s10

end Engine

/-!
Embedding of the current `src/utils/utils.ts` (the collector revision with
`consolidateTree` and the two-argument `computeStates`/`computeValue`, the
module imported by `useScreenReaderSimulator.ts`): namespace `Cur`.
-/

namespace Cur

open Dom

/-- One entry of the accessibility snapshot (`AccNode`). -/
structure AccNode where
  el : DNode
  role : String
  name : String
  description : String := ""
  value : Option String := none
  states : List String := []
  pos : Option (Option ℚ × Option ℚ) := none
  coords : Option (Int × Int) := none
  deriving Repr

def isDisableable (el : DNode) : Bool :=
  disableableTags.contains (tagOf el)

def isCheckable (el : DNode) : Bool :=
  tagOf el == "INPUT"

/-- `isHidden`, per element: the self-level checks (the `closest` ancestor
clauses are realized by the walker pruning hidden subtrees below, and the
`checkVisibility` call is the `visible` oracle). -/
def isHidden (el : DNode) : Bool :=
  getAttr el "aria-hidden" == some "true" || !(dataOf el).visible

/-- `isFocusable` (collector revision: disabled controls excluded). -/
def isFocusable (el : DNode) : Bool :=
  if tabIndexOf el ≥ 0 then true
  else
    let t := lowerStr (tagOf el)
    if ["button", "input", "select", "textarea"].contains t then
      !(isDisableable el && disabledProp el)
    else t == "a" && hasAttr el "href"

/-- Direct text children only, trimmed then whitespace-squashed. -/
def getDirectText (el : DNode) : String :=
  squashWS (jsTrim (String.join ((childrenOf el).map (fun c =>
    match c with
    | .text s => s
    | .elem _ _ => ""))))

/-- A non-blank direct text child exists. -/
def hasDirectText (el : DNode) : Bool :=
  (childrenOf el).any (fun c =>
    match c with
    | .text s => (jsTrim s).length > 0
    | .elem _ _ => false)

/-- `computeEffectiveRole`: the external role, with generic/presentation
downgraded to statictext when the element itself carries text. -/
def computeEffectiveRole (el : DNode) : String :=
  let role := Lib.getRole el
  if role == "" || role == "generic" || role == "presentation" then
    (if hasDirectText el then "statictext" else "generic")
  else role

/-- `computeStates` (collector revision, role passed in). -/
def computeStates (el : DNode) (role : String) : List String :=
  let attr := fun a => getAttr el a
  let s1 : List String :=
    if attr "aria-disabled" == some "true" then ["disabled"]
    else if isDisableable el && disabledProp el then ["disabled"]
    else []
  let ariaChecked := attr "aria-checked"
  let nativeChecked : Option Bool :=
    if isCheckable el then some (dataOf el).checked else none
  let s2 : List String :=
    if ariaChecked == some "true" || nativeChecked == some true then ["checked"]
    else if (ariaChecked == some "false" || nativeChecked == some false)
        && ["checkbox", "radio", "switch"].contains role then ["unchecked"]
    else if ariaChecked == some "mixed" then ["partially checked"]
    else []
  let s3 : List String :=
    (if attr "aria-pressed" == some "true" then ["pressed"] else [])
      ++ (if attr "aria-selected" == some "true" then ["selected"] else [])
      ++ (if attr "aria-expanded" == some "true" then ["expanded"] else [])
      ++ (if attr "aria-expanded" == some "false" then ["collapsed"] else [])
  let s4 : List String :=
    if attr "aria-invalid" == some "true" then ["invalid"]
    else if tagOf el == "INPUT" && (dataOf el).willValidate
        && !(dataOf el).validity then ["invalid"]
    else []
  let s5 : List String :=
    if ["columnheader", "rowheader"].contains role then
      match attr "aria-sort" with
      | some srt => if srt != "" && srt != "none" then ["sort " ++ srt] else []
      | none => []
    else []
  let s6 : List String :=
    if ["slider", "scrollbar", "separator", "tablist", "toolbar"].contains role then
      match attr "aria-orientation" with
      | some o => if o != "" then [o] else []
      | none => []
    else []
  let s7 : List String :=
    if attr "aria-required" == some "true"
        || (tagOf el == "INPUT" && hasAttr el "required") then ["required"]
    else []
  let s8 : List String :=
    if attr "aria-readonly" == some "true"
        || (tagOf el == "INPUT" && hasAttr el "readonly") then ["readonly"]
    else []
  s1 ++ s2 ++ s3 ++ s4 ++ s5 ++ s6 ++ s7 ++ s8

/-- The `${Math.round(((now - min) / (max - min)) * 100)}%` rendering; a
non-numeric `aria-valuenow` propagates NaN into the output. -/
def pctString (nowS : String) (minq maxq : ℚ) : String :=
  match jsNumber (some nowS) with
  | none => "NaN%"
  | some nw => toString (jsRound ((nw - minq) / (maxq - minq) * 100)) ++ "%"

/-- `computeValue` (collector revision, role passed in). -/
def computeValue (el : DNode) (role : String) : Option String :=
  let valText := getAttr el "aria-valuetext"
  if truthy valText then valText
  else
    let valNow := getAttr el "aria-valuenow"
    if truthy valNow
        && (role == "progressbar" || role == "slider" || role == "spinbutton") then
      let minq := numOr (getAttr el "aria-valuemin") 0
      let maxq := numOr (getAttr el "aria-valuemax") 100
      if role == "progressbar" && maxq > minq then
        some (pctString (valNow.getD "") minq maxq)
      else valNow
    else if ["INPUT", "TEXTAREA", "SELECT"].contains (tagOf el) then
      if jsTypeOf el == "password" then some "••••••"
      else if jsTypeOf el == "checkbox" || jsTypeOf el == "radio" then none
      else some (dataOf el).ival
    else none

/-- Element children (`parent.children`). -/
def elemChildren (n : DNode) : List DNode :=
  (childrenOf n).filter (fun c =>
    match c with
    | .text _ => false
    | .elem _ _ => true)

/-- Index of an element (by reference identity) in a list. -/
def indexOfRef (l : List DNode) (e : DNode) : Option Nat :=
  l.findIdx? (fun c => refOf c == refOf e)

/-- `computeHierarchy` (collector revision); the parent element is supplied
by the traversal. -/
def computeHierarchy (el : DNode) (role : String) (parent : Option DNode) :
    Option (Option ℚ × Option ℚ) :=
  let ariaPos := getAttr el "aria-posinset"
  let ariaSet := getAttr el "aria-setsize"
  if truthy ariaPos && truthy ariaSet then
    some (jsNumber ariaPos, jsNumber ariaSet)
  else if ["listitem", "option", "menuitem", "radio"].contains role then
    match parent with
    | some p =>
        let siblings := (elemChildren p).filter (fun c =>
          (role == "listitem" && tagOf c == "LI")
            || (role == "option" && tagOf c == "OPTION")
            || Lib.getRole c == role)
        match indexOfRef siblings el with
        | some i => some (some ((i : ℚ) + 1), some ((siblings.length : ℚ)))
        | none => none
    | none => none
  else none

/-- `table.rows`: the rows of a table in tree order (direct rows and rows of
direct row-group children). -/
def rowsOf (table : DNode) : List DNode :=
  (elemChildren table).flatMap (fun c =>
    if tagOf c == "TR" then [c]
    else if ["THEAD", "TBODY", "TFOOT"].contains (tagOf c) then
      (elemChildren c).filter (fun r => tagOf r == "TR")
    else [])

/-- `computeTableCoords` (collector revision); the ancestor chain (nearest
first) stands in for the `closest`/`parentElement` climbs. -/
def computeTableCoords (el : DNode) (ancestors : List DNode) :
    Option (Int × Int) :=
  let chain := el :: ancestors
  match chain.findIdx? (fun c => tagOf c == "TD" || tagOf c == "TH") with
  | none => none
  | some ci =>
      match chain.get? ci, chain.get? (ci + 1) with
      | some cell, some rowEl =>
          match (rowEl :: chain.drop (ci + 2)).find? (fun c => tagOf c == "TABLE") with
          | some table =>
              let r : Int := match indexOfRef (rowsOf table) rowEl with
                | some i => (i : Int) + 1
                | none => 0
              let c : Int := match indexOfRef (elemChildren rowEl) cell with
                | some i => (i : Int) + 1
                | none => 0
              some (r, c)
          | none => none
      | _, _ => none

mutual
/-- `collectNodesRecursively`, one node: visibility gate, reportability
gates, then the element's classification, then its children. -/
def walkN (doc : DNode) (ancestors : List DNode) : DNode → List AccNode
  | .text _ => []
  | .elem d cs =>
      let el := DNode.elem d cs
      if isHidden el then []
      else
        let role := computeEffectiveRole el
        let isGeneric := role == "generic" || role == "presentation"
          || role == "none"
        let focusable := isFocusable el
        let isText := role == "statictext" || role == "paragraph"
          || role == "heading"
        let isSelfContained :=
          ["img", "image", "figure", "separator", "hr"].contains role
        let here : List AccNode :=
          if !isGeneric || focusable || isSelfContained then
            let name0 := Lib.computeAccessibleName doc el
            let name := if name0 == "" && (isText || role == "statictext") then
                getDirectText el
              else name0
            let description := Lib.computeAccessibleDescription doc el
            let states := computeStates el role
            let value := computeValue el role
            let hierarchy := computeHierarchy el role ancestors.head?
            let coords := computeTableCoords el ancestors
            if name != "" || truthy value || focusable || states.length > 0
                || isSelfContained || hierarchy.isSome then
              [{ el := el, role := role, name := name, description := description,
                 states := states, value := value, pos := hierarchy,
                 coords := coords }]
            else []
          else []
        here ++ walkL doc (el :: ancestors) cs
/-- `collectNodesRecursively`, child loop. -/
def walkL (doc : DNode) (ancestors : List DNode) : List DNode → List AccNode
  | [] => []
  | c :: rest => walkN doc ancestors c ++ walkL doc ancestors rest
end

/-- The `querySelector("input, select, textarea, button")` call of
`consolidateTree`: first matching descendant in document order. -/
def firstControlDescendant (l : DNode) : Option DNode :=
  (descendants l).find? (fun c =>
    ["INPUT", "SELECT", "TEXTAREA", "BUTTON"].contains (tagOf c))

/-- Case A of the `consolidateTree` filter: the label's truthy `for`
attribute resolves to an element whose reference is in the collected set. -/
def dropByFor (doc : DNode) (interactiveRefs : List Nat) (el : DNode) : Bool :=
  match getAttr el "for" with
  | some forId =>
      if forId != "" then
        match getElementById doc forId with
        | some t => interactiveRefs.contains (refOf t)
        | none => false
      else false
  | none => false

/-- The filter body of `consolidateTree`, closing over the collected
reference set. -/
def keepNode (doc : DNode) (interactiveRefs : List Nat) (node : AccNode) :
    Bool :=
  if tagOf node.el == "LABEL" then
    if dropByFor doc interactiveRefs node.el then false
    else
      match firstControlDescendant node.el with
      | some t => !interactiveRefs.contains (refOf t)
      | none => true
  else true

/-- `consolidateTree`: drop label elements paired (by `for` reference or by
first wrapped control) with an element of the collected list. -/
def consolidateTree (doc : DNode) (nodes : List AccNode) : List AccNode :=
  nodes.filter (keepNode doc (nodes.map (fun n => refOf n.el)))

/-- `collectAccTree`: full traversal from the document root, then the
de-duplication pass. -/
def collectAccTree (doc : DNode) : List AccNode :=
  consolidateTree doc (walkL doc [] (childrenOf doc))

end Cur

/-!
Embedding of `src/hooks/useScreenReaderSimulator.ts` (`useScreenReaderCore`):
namespace `Hook`.  The React state cell triple (index, log, highlight ring,
snapshot) is a record; a narration (`narrate`) prepends to the bounded log
and is returned as an emitted event.  Speech, scrolling and the DOM class
toggles are collaborator side effects; the exclusive focus ring is the
`highlight` field.
-/

namespace Hook

open Dom Cur

/-- `ROLE_MAP` of `src/utils/roleMap.ts`. -/
def ROLE_MAP : List (String × String) :=
  [("button", "button"), ("link", "link"), ("textbox", "textbox"),
   ("searchbox", "search edit"), ("checkbox", "checkbox"),
   ("radio", "radio button"), ("switch", "toggle button"),
   ("combobox", "combo box"), ("listbox", "list box"), ("slider", "slider"),
   ("spinbutton", "spin button"), ("heading", "heading"), ("list", "list"),
   ("listitem", "list item"), ("table", "table"), ("row", "row"),
   ("columnheader", "column header"), ("rowheader", "row header"),
   ("cell", "cell"), ("grid", "grid"), ("img", "image"), ("image", "image"),
   ("figure", "figure"), ("separator", "separator"),
   ("banner", "banner landmark"), ("navigation", "navigation landmark"),
   ("main", "main landmark"), ("contentinfo", "content info landmark"),
   ("form", "form"), ("region", "region"), ("section", "region")]

/-- `ROLE_MAP[role] || role`. -/
def mapRole (r : String) : String :=
  match (ROLE_MAP.find? (fun p => p.1 == r)).map (fun p => p.2) with
  | some m => if m != "" then m else r
  | none => r

/-- `s.charAt(0).toUpperCase() + s.slice(1)`. -/
def capFirst (s : String) : String :=
  match s.toList with
  | [] => ""
  | c :: rest => String.mk (c.toUpper :: rest)

/-- `formatAnnouncement`: the fixed part order of the announcement phrase. -/
def formatAnnouncement (doc : DNode) (node : AccNode) : String :=
  let p1 : List String :=
    if ["checkbox", "radio button", "switch"].contains node.role then
      match node.states.find? (fun s =>
          containsSub s "checked" || containsSub s "selected") with
      | some st => [st]
      | none => []
    else []
  let p2 : List String :=
    if node.name != "" then ["\"" ++ node.name ++ "\""] else []
  let p3 : List String :=
    if node.role != "" && node.role != "statictext" then
      if node.role == "heading" then
        let levelAttr := getAttr node.el "aria-level"
        let level : Option Int :=
          if truthy levelAttr then parseIntJS (levelAttr.getD "")
          else parseIntJS (strDrop (tagOf node.el) 1)
        [match level with
         | some l => "Heading level " ++ toString l
         | none => "Heading"]
      else [capFirst (mapRole node.role)]
    else []
  let p4 : List String :=
    if node.description != "" then [node.description] else []
  let placeholderPart : List String :=
    if truthy (getAttr node.el "placeholder") then
      [(getAttr node.el "placeholder").getD ""]
    else []
  let p5 : List String :=
    if node.role == "textbox" || node.role == "combobox" then
      if jsTypeOf node.el == "password" then ["Password field"]
      else
        match valueProp node.el with
        | some v =>
            if jsTrim v != "" then ["Value: " ++ jsTrim v] else placeholderPart
        | none => placeholderPart
    else []
  let p6 : List String :=
    if node.states.contains "invalid" then
      if (dataOf node.el).validationMessage != "" then
        ["Error: " ++ (dataOf node.el).validationMessage]
      else
        match getAttr node.el "aria-errormessage" with
        | some errId =>
            if errId != "" then
              match getElementById doc errId with
              | some errEl =>
                  if textContent errEl != "" then
                    ["Error: " ++ jsTrim (textContent errEl)]
                  else []
              | none => []
            else []
        | none => []
    else []
  let p7 : List String :=
    let others := node.states.filter (fun s =>
      !(containsSub s "checked" || containsSub s "selected"
        || containsSub s "invalid"))
    if others.length > 0 then [String.intercalate ", " others] else []
  let p8 : List String :=
    match node.coords with
    | some (r, c) => ["row " ++ toString r ++ ", col " ++ toString c]
    | none => []
  String.intercalate ", " (p1 ++ p2 ++ p3 ++ p4 ++ p5 ++ p6 ++ p7 ++ p8)

/-- The navigation-engine state owned by `useScreenReaderCore`. -/
structure SRState where
  doc : DNode
  enabled : Bool := true
  nodes : List AccNode := []
  index : Int := -1
  log : List String := []
  highlight : Option Nat := none

/-- `handleLog`: prepend and cap the bounded log ring. -/
def pushLog (l : List String) (t : String) : List String :=
  (t :: l).take 50

/-- `focusAt`: the cursor move.  Returns the successor state and the list of
narrations emitted. -/
def focusAt (s : SRState) (i : Int) : SRState × List String :=
  if !s.enabled || s.nodes.length == 0 then (s, [])
  else
    let clamped : Int := max 0 (min ((s.nodes.length : Int) - 1) i)
    let s1 := { s with index := clamped }
    match s.nodes.get? clamped.toNat with
    | none => (s1, [])
    | some node =>
        let live : AccNode :=
          { node with states := Cur.computeStates node.el node.role,
                      value := Cur.computeValue node.el node.role }
        let t := formatAnnouncement s.doc live
        ({ s1 with highlight := some (refOf node.el), log := pushLog s1.log t },
         [t])

/-- The `while` scan of `seek`; the fuel (the snapshot length passed at the
call site) bounds the in-range steps the unit-step loop can take. -/
def scanFrom (nodes : List AccNode) (pred : AccNode → Bool) (step : Int) :
    Int → Nat → Option Int
  | _, 0 => none
  | i, Nat.succ fuel =>
      if 0 ≤ i && i < (nodes.length : Int) then
        match nodes.get? i.toNat with
        | some n =>
            if pred n then some i else scanFrom nodes pred step (i + step) fuel
        | none => scanFrom nodes pred step (i + step) fuel
      else none

/-- `seek`: scan from the node adjacent to the cursor to the boundary; focus
the first match, else narrate the no-match fallback. -/
def seek (s : SRState) (forward : Bool) (label : String)
    (pred : AccNode → Bool) : SRState × List String :=
  if s.nodes.length == 0 then (s, [])
  else
    let step : Int := if forward then 1 else -1
    match scanFrom s.nodes pred step (s.index + step) s.nodes.length with
    | some i => focusAt s i
    | none =>
        let t := "No " ++ (if forward then "next" else "previous") ++ " " ++ label
        ({ s with log := pushLog s.log t }, [t])

end Hook

/-!
Specification-side definitions and concrete documents used by the claim
theorems.
-/

open Dom

/-- The de-duplication pairing realized by `consolidateTree`: the label's
`for` attribute resolves to the element, or the label's first
input/select/textarea/button descendant is the element (identity by
reference). -/
def labelPairedWith (doc l e : DNode) : Bool :=
  (match getAttr l "for" with
   | some forId =>
       forId != ""
         && ((getElementById doc forId).map refOf == some (refOf e))
   | none => false)
  || ((Cur.firstControlDescendant l).map refOf == some (refOf e))

/-- The value-resolution order in the spec's words: an explicit textual
value property wins outright; else a present numeric current value on a
range-valued role is formatted as a percentage for the progress role with a
valid range and as the bare current value otherwise; else an editable
control's literal value, masked for password fields and suppressed for
checkbox/radio controls. -/
def computeValueSpec (el : DNode) (role : String) : Option String :=
  if truthy (getAttr el "aria-valuetext") then getAttr el "aria-valuetext"
  else if truthy (getAttr el "aria-valuenow")
      && (["progressbar", "slider", "spinbutton"].contains role) then
    (if role == "progressbar"
        && numOr (getAttr el "aria-valuemax") 100
          > numOr (getAttr el "aria-valuemin") 0 then
      some (Cur.pctString ((getAttr el "aria-valuenow").getD "")
        (numOr (getAttr el "aria-valuemin") 0)
        (numOr (getAttr el "aria-valuemax") 100))
    else getAttr el "aria-valuenow")
  else if ["INPUT", "TEXTAREA", "SELECT"].contains (tagOf el) then
    (if jsTypeOf el == "password" then some "••••••"
     else if ["checkbox", "radio"].contains (jsTypeOf el) then none
     else some (dataOf el).ival)
  else none

/-- An input carrying an explicit `aria-label` that differs from its
wrapping label's text. -/
def exInp1 : DNode :=
  .elem { ref := 4, tag := "INPUT", attrs := [("aria-label", "Other")] } []

/-- A label wrapping text and `exInp1`. -/
def exLbl1 : DNode := .elem { ref := 3, tag := "LABEL" } [.text "Name", exInp1]

/-- Document: a container wrapping `exLbl1`. -/
def exDoc1 : DNode :=
  .elem { ref := 1, tag := "HTML" } [.elem { ref := 2 } [exLbl1]]

/-- An input hidden from the accessibility tree (CSS-invisible). -/
def exInp4h : DNode := .elem { ref := 4, tag := "INPUT", visible := false } []

/-- A visible input. -/
def exInp5 : DNode := .elem { ref := 5, tag := "INPUT" } []

/-- A label wrapping text, a hidden input and a visible input. -/
def exLbl3b : DNode :=
  .elem { ref := 3, tag := "LABEL" } [.text "Name", exInp4h, exInp5]

/-- Document: a container wrapping `exLbl3b`. -/
def exDoc1b : DNode :=
  .elem { ref := 1, tag := "HTML" } [.elem { ref := 2 } [exLbl3b]]

/-- A plain input with no authored name. -/
def exInp2 : DNode := .elem { ref := 4, tag := "INPUT" } []

/-- A label wrapping text and `exInp2`. -/
def exLbl2 : DNode := .elem { ref := 3, tag := "LABEL" } [.text "Name", exInp2]

/-- Document: a container wrapping `exLbl2` (the spec's de-duplication
scenario). -/
def exDoc2 : DNode :=
  .elem { ref := 1, tag := "HTML" } [.elem { ref := 2 } [exLbl2]]

/-- A label paired with no control at all. -/
def exLone : DNode := .elem { ref := 2, tag := "LABEL" } [.text "Lone"]

/-- Document containing only `exLone`. -/
def exDoc3 : DNode := .elem { ref := 1, tag := "HTML" } [exLone]

/-- The snapshot entry `collectAccTree` produces for `exLone`. -/
def exLoneNode : Cur.AccNode :=
  { el := exLone, role := "statictext", name := "Lone" }

/-- A script element with text content. -/
def exScr : DNode := .elem { ref := 3, tag := "SCRIPT" } [.text "var x"]

/-- A button whose children are text and a script element. -/
def exBtn4 : DNode := .elem { ref := 2, tag := "BUTTON" } [.text "Go ", exScr]

/-- Document containing `exBtn4`. -/
def exDoc4 : DNode := .elem { ref := 1, tag := "HTML" } [exBtn4]

/-- A 150-character string. -/
def exLongName : String := String.mk (List.replicate 150 'a')

/-- A button with a 150-character `aria-label`. -/
def exBtnLong : DNode :=
  .elem { ref := 1, tag := "BUTTON", attrs := [("aria-label", exLongName)] } []

/-- A plain container holding 150 characters of text (a static-text node). -/
def exDivLong : DNode := .elem { ref := 1, tag := "DIV" } [.text exLongName]

/-- A native level-3 heading. -/
def exH3 : DNode := .elem { ref := 1, tag := "H3" } [.text "Title"]

/-- A natively checked checkbox with no ARIA overrides. -/
def exCbx : DNode :=
  .elem { ref := 1, tag := "INPUT", attrs := [("type", "checkbox")],
          checked := true } []

/-- A snapshot entry for `exH3`. -/
def exNode1 : Cur.AccNode := { el := exH3, role := "heading", name := "Title" }

/-- A one-node engine state with an unset cursor. -/
def exSt1 : Hook.SRState := { doc := exDoc3, nodes := [exNode1], index := -1 }

/-- An engine state with an empty snapshot. -/
def exSt0 : Hook.SRState := { doc := exDoc3, nodes := [], index := -1 }

/-- A disabled engine state with a non-empty snapshot. -/
def exStOff : Hook.SRState :=
  { doc := exDoc3, nodes := [exNode1], index := -1, enabled := false }

/-!
Helper lemmas shared by the claim theorems.
-/

/-- A name truncated to 140 characters plus the ellipsis has length 141. -/
theorem truncLen (s : String) (h : 140 < s.length) :
    (String.mk (s.toList.take 140) ++ "…").length = 141 := by
  rw [String.length_append]
  have h1 : (String.mk (s.toList.take 140)).length = 140 := by
    show (s.toList.take 140).length = 140
    rw [List.length_take]
    have h2 : s.length = s.toList.length := rfl
    omega
  have h3 : "…".length = 1 := rfl
  rw [h1, h3]

/-- The forward `seek` scan finds nothing when no node at or beyond the
start index satisfies the predicate. -/
theorem scan_none_fwd (nodes : List Cur.AccNode) (pred : Cur.AccNode → Bool) :
    ∀ (fuel : ℕ) (i : Int),
      (∀ (j : ℕ) (hj : j < nodes.length), i ≤ (j : Int) →
        pred (nodes.get ⟨j, hj⟩) = false) →
      Hook.scanFrom nodes pred 1 i fuel = none := by
  intro fuel
  induction fuel with
  | zero => intro i _; rfl
  | succ n ih =>
      intro i h
      unfold Hook.scanFrom
      by_cases hb : (0 ≤ i ∧ i < (nodes.length : Int))
      · have hj : i.toNat < nodes.length := by omega
        have hp : pred (nodes.get ⟨i.toNat, hj⟩) = false :=
          h i.toNat hj (by omega)
        rw [if_pos (by simp [hb.1, hb.2]), List.get?_eq_get hj]
        simp only [hp, Bool.false_eq_true, if_false]
        exact ih (i + 1) (fun j hj2 hij => h j hj2 (by omega))
      · rw [if_neg]
        simp only [Bool.and_eq_true, decide_eq_true_eq]
        omega

/-- The backward `seek` scan finds nothing when no node at or before the
start index satisfies the predicate. -/
theorem scan_none_bwd (nodes : List Cur.AccNode) (pred : Cur.AccNode → Bool) :
    ∀ (fuel : ℕ) (i : Int),
      (∀ (j : ℕ) (hj : j < nodes.length), (j : Int) ≤ i →
        pred (nodes.get ⟨j, hj⟩) = false) →
      Hook.scanFrom nodes pred (-1) i fuel = none := by
  intro fuel
  induction fuel with
  | zero => intro i _; rfl
  | succ n ih =>
      intro i h
      unfold Hook.scanFrom
      by_cases hb : (0 ≤ i ∧ i < (nodes.length : Int))
      · have hj : i.toNat < nodes.length := by omega
        have hp : pred (nodes.get ⟨i.toNat, hj⟩) = false :=
          h i.toNat hj (by omega)
        rw [if_pos (by simp [hb.1, hb.2]), List.get?_eq_get hj]
        simp only [hp, Bool.false_eq_true, if_false]
        exact ih (i + -1) (fun j hj2 hij => h j hj2 (by omega))
      · rw [if_neg]
        simp only [Bool.and_eq_true, decide_eq_true_eq]
        omega

/-!
Claim theorems.
-/

set_option maxRecDepth 40000 in
/-- C1 (counterexample): the claim fails as stated, in both conjuncts.  In
`exDoc1` the label's wrapped input is in the snapshot and the label is
excluded, but the input's computed name is its `aria-label` "Other", not
the label's text "Name".  In `exDoc1b` the label wraps an in-snapshot
interactive element (ref 5), yet the label (ref 3) remains in the snapshot,
because the pairing check only inspects the first input/select/textarea/
button descendant (ref 4, pruned as hidden). -/
theorem label_dedup_claim_counterexample :
    ((Cur.collectAccTree exDoc1).map (fun n => refOf n.el) = [4])
      ∧ ((Cur.firstControlDescendant exLbl1).map refOf = some (refOf exInp1))
      ∧ (tagOf exLbl1 = "LABEL")
      ∧ (U.computeAccName exDoc1 exInp1 = "Other")
      ∧ (collapseWS (textContent exLbl1) = "Name")
      ∧ (("Other" : String) ≠ "Name")
      ∧ ((Cur.collectAccTree exDoc1b).map (fun n => refOf n.el) = [3, 5])
      ∧ ((descendants exLbl3b).map refOf = [4, 5]) := by
  refine ⟨rfl, rfl, rfl, rfl, rfl, by decide, rfl, rfl⟩

/-- C1 (amended): after `collectAccTree` no label element in the snapshot is
paired — by a truthy `for` reference resolving to the element, or by its
first input/select/textarea/button descendant being the element — with any
element of the snapshot; and an element reached by the native-label step of
`computeAccName` (no aria-label, no aria-labelledby, no image alt, a
non-empty `labels` collection) is named by the collapsed concatenation of
its labels' text. -/
theorem label_dedup_and_label_name :
    (∀ (doc : DNode) (n m : Cur.AccNode),
      n ∈ Cur.collectAccTree doc → m ∈ Cur.collectAccTree doc →
      tagOf n.el = "LABEL" → labelPairedWith doc n.el m.el = false)
    ∧ (∀ (doc el : DNode),
      truthy (getAttr el "aria-label") = false →
      truthy (getAttr el "aria-labelledby") = false →
      (tagOf el == "IMG" && truthy (getAttr el "alt")) = false →
      hasLabelsProp el = true → (labelsOf doc el).length ≠ 0 →
      U.computeAccName doc el
        = collapseWS (String.intercalate " "
            ((labelsOf doc el).map textContent))) := by
  constructor
  · intro doc n m hn hm htag
    unfold Cur.collectAccTree Cur.consolidateTree at hn hm
    obtain ⟨hn_pre, hfn⟩ := List.mem_filter.mp hn
    obtain ⟨hm_pre, _⟩ := List.mem_filter.mp hm
    have hmref : ((Cur.walkL doc [] (childrenOf doc)).map
        (fun nd => refOf nd.el)).contains (refOf m.el) = true := by
      apply List.elem_iff.mpr
      exact List.mem_map.mpr ⟨m, hm_pre, rfl⟩
    unfold Cur.keepNode at hfn
    simp only [htag] at hfn
    rw [show (("LABEL" : String) == "LABEL") = true from rfl] at hfn
    simp only [if_true] at hfn
    cases hlp : labelPairedWith doc n.el m.el
    · rfl
    · exfalso
      unfold labelPairedWith at hlp
      rcases Bool.or_eq_true_iff.mp hlp with hA | hB
      · have hdrop : Cur.dropByFor doc ((Cur.walkL doc [] (childrenOf doc)).map
            (fun nd => refOf nd.el)) n.el = true := by
          unfold Cur.dropByFor
          rcases hfor : getAttr n.el "for" with _ | forId
          · rw [hfor] at hA
            simp at hA
          · rw [hfor] at hA
            obtain ⟨hne, hbeq⟩ := Bool.and_eq_true_iff.mp hA
            rcases hbyid : getElementById doc forId with _ | t
            · rw [hbyid] at hbeq
              simp at hbeq
            · rw [hbyid] at hbeq
              have hteq : refOf t = refOf m.el := by
                simpa using hbeq
              simp only [hne, if_true, hbyid, hteq]
              exact hmref
        rw [hdrop] at hfn
        simp at hfn
      · rcases hfcd : Cur.firstControlDescendant n.el with _ | t
        · rw [hfcd] at hB
          simp at hB
        · rw [hfcd] at hB
          have hteq : refOf t = refOf m.el := by
            simpa using hB
          rcases hdrop : Cur.dropByFor doc ((Cur.walkL doc []
              (childrenOf doc)).map (fun nd => refOf nd.el)) n.el with _ | _
          · rw [hdrop] at hfn
            simp only [Bool.false_eq_true, if_false, hfcd, hteq, hmref] at hfn
            simp at hfn
          · rw [hdrop] at hfn
            simp at hfn
  · intro doc el h1 h2 h3 h4 h5
    have h45 : (hasLabelsProp el && (labelsOf doc el).length != 0) = true := by
      simp [h4, h5]
    simp only [U.computeAccName, h1, h2, h3, h45, Bool.false_eq_true, if_false,
      if_true]
    rfl

set_option maxRecDepth 40000 in
/-- C1 (witness): an unpaired label kept in the snapshot of `exDoc3` is
paired with nothing there, and the wrapped input of `exDoc2` takes the
label's text "Name" as its computed name. -/
theorem label_dedup_and_label_name_witness :
    labelPairedWith exDoc3 exLoneNode.el exLoneNode.el = false
      ∧ U.computeAccName exDoc2 exInp2 = "Name" := by
  constructor
  · have hmem : exLoneNode ∈ Cur.collectAccTree exDoc3 := List.Mem.head _
    exact label_dedup_and_label_name.1 exDoc3 exLoneNode exLoneNode hmem hmem
      rfl
  · exact (label_dedup_and_label_name.2 exDoc2 exInp2 rfl rfl rfl rfl
      (by decide)).trans (by decide)

set_option maxRecDepth 40000 in
/-- C2 (counterexample): the recursive name-from-subtree accumulation does
not skip script descendants — the button of `exDoc4` is named
"Go var x", where "var x" is the text of its script child, while the
skipping accumulation the claim describes would yield "Go". -/
theorem name_from_content_skipping_counterexample :
    U.computeAccName exDoc4 exBtn4 = "Go var x"
      ∧ collapseWS (Lib.nameContent exBtn4) = "Go"
      ∧ (("Go var x" : String) ≠ "Go") := ⟨rfl, rfl, by decide⟩

/-- C2 (amended): for an element whose role draws its name from content
(and whose earlier name-resolution steps yield nothing), `computeAccName`
is the collapsed, truncated result of `getSubtreeName` — the accumulation
that substitutes an image descendant's alt text for the image but contributes
the text of script, style, and hidden descendants as ordinary content. -/
theorem name_from_content_accumulation :
    ∀ (doc el : DNode),
      truthy (getAttr el "aria-label") = false →
      truthy (getAttr el "aria-labelledby") = false →
      (tagOf el == "IMG" && truthy (getAttr el "alt")) = false →
      (hasLabelsProp el && (labelsOf doc el).length != 0) = false →
      (U.NAME_FROM_CONTENT_ROLES.contains (U.computeRole el)
        || U.computeRole el == "textbox"
        || U.computeRole el == "combobox") = true →
      U.computeRole el ≠ "statictext" →
      U.computeAccName doc el
        = (if U.collapse (U.getSubtreeName el) != "" then
             (if (U.collapse (U.getSubtreeName el)).length > 140 then
                String.mk ((U.collapse (U.getSubtreeName el)).toList.take 140)
                  ++ "…"
              else U.collapse (U.getSubtreeName el))
           else "") := by
  intro doc el h1 h2 h3 h4 h5 h6
  have h6b : (U.computeRole el == "statictext") = false := by
    simp [h6]
  simp only [U.computeAccName, h1, h2, h3, h4, h5, h6b, Bool.false_eq_true,
    if_false, if_true]

set_option maxRecDepth 40000 in
/-- C2 (witness): the button of `exDoc4` is a name-from-content element and
its computed name is the unskipped accumulation "Go var x". -/
theorem name_from_content_accumulation_witness :
    U.computeRole exBtn4 = "button"
      ∧ U.computeAccName exDoc4 exBtn4 = "Go var x" := by
  refine ⟨rfl, ?_⟩
  exact (name_from_content_accumulation exDoc4 exBtn4 rfl rfl rfl rfl
    (by decide) (by decide)).trans (by decide)

/-- C3: `computeValue` equals the value-resolution order stated by the
spec — explicit textual value first, then the numeric current value on
range-valued roles (percentage for a progress role with a valid range, bare
otherwise), then the editable control's literal value with password masking
and checkbox/radio suppression. -/
theorem computeValue_resolution_order :
    ∀ (el : DNode) (role : String),
      Cur.computeValue el role = computeValueSpec el role := by
  intro el role
  unfold Cur.computeValue computeValueSpec
  have h1 : (["progressbar", "slider", "spinbutton"].contains role)
      = (role == "progressbar" || role == "slider" || role == "spinbutton") := by
    simp only [List.contains_cons, List.contains_nil, Bool.or_false,
      Bool.or_assoc]
  have h2 : (["checkbox", "radio"].contains (jsTypeOf el))
      = (jsTypeOf el == "checkbox" || jsTypeOf el == "radio") := by
    simp only [List.contains_cons, List.contains_nil, Bool.or_false]
  rw [h1, h2]

/-- C4: a node whose external role is heading, with no `aria-level`
attribute and a native H1–H6 tag, gets the state "level N" with N the tag's
digit from the a11y-engine `computeStates`. -/
theorem computeStates_heading_implicit_level :
    ∀ (el : DNode),
      Lib.getRole el = "heading" → getAttr el "aria-level" = none →
      tagOf el ∈ ["H1", "H2", "H3", "H4", "H5", "H6"] →
      ("level " ++ strDrop (tagOf el) 1) ∈ Engine.computeStates el := by
  intro el hrole hlvl hmem
  have hcont : (["H1", "H2", "H3", "H4", "H5", "H6"].contains (tagOf el))
      = true := by
    exact List.elem_iff.mpr hmem
  simp only [Engine.computeStates, hrole, hlvl, hcont]
  simp [List.mem_append]

set_option maxRecDepth 40000 in
/-- C4 (witness): a native `<h3>` heading reports "level 3". -/
theorem computeStates_heading_implicit_level_witness :
    ("level 3" : String) ∈ Engine.computeStates exH3 :=
  computeStates_heading_implicit_level exH3 rfl rfl (by decide)

/-- C5: a natively checked checkbox/radio input with no `aria-checked`
override reports "checked" and never "unchecked", in all three
`computeStates` revisions (the classifier's, the a11y-engine's with a
checkbox/radio/switch external role, and the collector's for a
checkbox/radio/switch role argument). -/
theorem computeStates_native_checked :
    ∀ (el : DNode),
      tagOf el = "INPUT" →
      (inputType el = "checkbox" ∨ inputType el = "radio") →
      (dataOf el).checked = true →
      getAttr el "aria-checked" = none →
      (("checked" ∈ U.computeStates el ∧ "unchecked" ∉ U.computeStates el)
        ∧ (Lib.getRole el = "checkbox" ∨ Lib.getRole el = "radio"
            ∨ Lib.getRole el = "switch" →
           "checked" ∈ Engine.computeStates el
             ∧ "unchecked" ∉ Engine.computeStates el)
        ∧ (∀ role : String,
            role = "checkbox" ∨ role = "radio" ∨ role = "switch" →
           "checked" ∈ Cur.computeStates el role
             ∧ "unchecked" ∉ Cur.computeStates el role)) := by
  intro el htag htype hchk haria
  refine ⟨?_, ?_, ?_⟩
  · rcases htype with ht | ht <;>
      constructor <;>
      simp only [U.computeStates, htag, haria, hchk, ht] <;>
      simp [List.mem_append, not_or] <;>
      split_ifs <;>
      simp_all
  · intro hrole
    have hc : jsOrS (getAttr el "aria-checked")
        ((checkedProp el).map (fun b => if b then "true" else "false"))
        = some "true" := by
      rw [haria]
      unfold checkedProp
      rw [htag, hchk]
      simp [jsOrS, truthy]
    rcases hrole with hr | hr | hr <;>
      constructor <;>
      simp only [Engine.computeStates, haria, hc, hr] <;>
      simp [List.mem_append, not_or] <;>
      split_ifs <;>
      simp_all
  · intro role hrole
    rcases hrole with hr | hr | hr <;>
      subst hr <;>
      constructor <;>
      simp only [Cur.computeStates, Cur.isCheckable, htag, haria, hchk] <;>
      simp [List.mem_append, not_or] <;>
      split_ifs <;>
      simp_all

set_option maxRecDepth 40000 in
/-- C5 (witness): the concrete checked checkbox `exCbx`. -/
theorem computeStates_native_checked_witness :
    ("checked" : String) ∈ U.computeStates exCbx
      ∧ ("unchecked" : String) ∉ U.computeStates exCbx
      ∧ ("checked" : String) ∈ Engine.computeStates exCbx
      ∧ ("checked" : String) ∈ Cur.computeStates exCbx "checkbox"
      ∧ ("unchecked" : String) ∉ Cur.computeStates exCbx "checkbox" := by
  have h := computeStates_native_checked exCbx rfl (Or.inl rfl) rfl rfl
  exact ⟨h.1.1, h.1.2, (h.2.1 (Or.inl rfl)).1,
    (h.2.2 "checkbox" (Or.inl rfl)).1, (h.2.2 "checkbox" (Or.inl rfl)).2⟩

set_option maxRecDepth 100000 in
/-- C6 (counterexample): a 150-character `aria-label` becomes a
150-character name — `computeAccName` does not truncate names produced by
the explicit-label step. -/
theorem computeAccName_truncation_counterexample :
    U.computeAccName exBtnLong exBtnLong = exLongName
      ∧ ¬((U.computeAccName exBtnLong exBtnLong).length ≤ 141) := by
  refine ⟨rfl, by decide⟩

/-- C6 (amended): the 140-character-plus-ellipsis bound holds exactly for
the content-derived resolution steps: when aria-label, aria-labelledby,
image alt and native labels all yield nothing, the computed name is at most
141 characters (140 plus the one-character ellipsis). -/
theorem computeAccName_content_truncation :
    ∀ (doc el : DNode),
      truthy (getAttr el "aria-label") = false →
      truthy (getAttr el "aria-labelledby") = false →
      (tagOf el == "IMG" && truthy (getAttr el "alt")) = false →
      (hasLabelsProp el && (labelsOf doc el).length != 0) = false →
      (U.computeAccName doc el).length ≤ 141 := by
  intro doc el h1 h2 h3 h4
  simp only [U.computeAccName, h1, h2, h3, h4, Bool.false_eq_true, if_false]
  split_ifs <;>
    first
      | decide
      | omega
      | (rw [truncLen _ (by omega)])

set_option maxRecDepth 100000 in
/-- C6 (witness): a 150-character static-text container is truncated to
exactly 141 characters (140 plus the ellipsis). -/
theorem computeAccName_content_truncation_witness :
    (U.computeAccName exDivLong exDivLong).length ≤ 141
      ∧ (U.computeAccName exDivLong exDivLong).length = 141 := by
  refine ⟨computeAccName_content_truncation exDivLong exDivLong rfl rfl rfl
    rfl, by decide⟩

set_option maxRecDepth 40000 in
/-- C7 (counterexample): on an empty snapshot `seek` is silent — it emits
zero narrations, not the claimed single "No next …" fallback (the cursor is
still unchanged). -/
theorem seek_empty_snapshot_counterexample :
    (Hook.seek exSt0 true "heading" (fun _ => false)).2 = []
      ∧ (Hook.seek exSt0 true "heading" (fun _ => false)).1.index = exSt0.index
      ∧ ((Hook.seek exSt0 true "heading" (fun _ => false)).2.length ≠ 1) := by
  refine ⟨rfl, rfl, by decide⟩

/-- C7 (amended): on a non-empty snapshot, when no node strictly beyond the
cursor in the scan direction satisfies the predicate, `seek` leaves the
cursor unchanged and emits exactly the narration "No next <label>" (or
"No previous <label>"). -/
theorem seek_no_match_narration :
    ∀ (s : Hook.SRState) (forward : Bool) (label : String)
      (pred : Cur.AccNode → Bool), s.nodes ≠ [] →
      (∀ (j : ℕ) (hj : j < s.nodes.length),
        (if forward then s.index < (j : Int) else (j : Int) < s.index) →
        pred (s.nodes.get ⟨j, hj⟩) = false) →
      (Hook.seek s forward label pred).1.index = s.index
        ∧ (Hook.seek s forward label pred).2
          = ["No " ++ (if forward then "next" else "previous") ++ " "
              ++ label] := by
  intro s forward label pred hn h
  have h0 : s.nodes.length ≠ 0 := by
    have := List.length_pos.mpr hn
    omega
  unfold Hook.seek
  rw [if_neg (by simp [h0])]
  cases forward with
  | true =>
      have hscan : Hook.scanFrom s.nodes pred 1 (s.index + 1) s.nodes.length
          = none := by
        apply scan_none_fwd
        intro j hj hij
        refine h j hj ?_
        simp only [if_true]
        omega
      simp only [if_true, hscan]
      exact ⟨trivial, trivial⟩
  | false =>
      have hscan : Hook.scanFrom s.nodes pred (-1) (s.index + -1)
          s.nodes.length = none := by
        apply scan_none_bwd
        intro j hj hij
        refine h j hj ?_
        simp only [Bool.false_eq_true, if_false]
        omega
      simp only [Bool.false_eq_true, if_false, hscan]
      exact ⟨trivial, trivial⟩

set_option maxRecDepth 40000 in
/-- C7 (witness): seeking a button beyond the cursor in a one-heading
snapshot narrates exactly "No next button" and keeps the cursor. -/
theorem seek_no_match_narration_witness :
    (Hook.seek exSt1 true "button" (fun n => n.role == "button")).1.index
        = exSt1.index
      ∧ (Hook.seek exSt1 true "button" (fun n => n.role == "button")).2
        = ["No next button"] := by
  have hne : exSt1.nodes ≠ [] := List.cons_ne_nil _ _
  have hpred : ∀ (j : ℕ) (hj : j < exSt1.nodes.length),
      (if true then exSt1.index < (j : Int) else (j : Int) < exSt1.index) →
      (fun n => n.role == "button") (exSt1.nodes.get ⟨j, hj⟩) = false := by
    intro j hj _
    have hj1 : j < 1 := hj
    have hj0 : j = 0 := by omega
    subst hj0
    rfl
  have h := seek_no_match_narration exSt1 true "button"
    (fun n => n.role == "button") hne hpred
  exact ⟨h.1, h.2⟩

/-- C8: with the engine enabled and a non-empty snapshot, `focusAt i` sets
the cursor to the clamp of `i` into `[0, length-1]`, a valid index. -/
theorem focusAt_clamps_cursor :
    ∀ (s : Hook.SRState) (i : Int), s.enabled = true → s.nodes ≠ [] →
      (Hook.focusAt s i).1.index
          = max 0 (min ((s.nodes.length : Int) - 1) i)
        ∧ 0 ≤ (Hook.focusAt s i).1.index
        ∧ (Hook.focusAt s i).1.index < (s.nodes.length : Int) := by
  intro s i he hn
  have h0 : s.nodes.length ≠ 0 := by
    have := List.length_pos.mpr hn
    omega
  have hidx : (Hook.focusAt s i).1.index
      = max 0 (min ((s.nodes.length : Int) - 1) i) := by
    unfold Hook.focusAt
    rw [if_neg]
    · rcases h : s.nodes.get?
          ((max 0 (min ((s.nodes.length : Int) - 1) i)).toNat) with _ | node
      · simp only [h]
      · simp only [h]
    · simp [he, h0]
  refine ⟨hidx, ?_, ?_⟩
  · rw [hidx]; exact le_max_left _ _
  · rw [hidx]
    have h1 : min ((s.nodes.length : Int) - 1) i ≤ (s.nodes.length : Int) - 1 :=
      min_le_left _ _
    have h2 : (0 : Int) < (s.nodes.length : Int) := by
      have := List.length_pos.mpr hn
      omega
    omega

set_option maxRecDepth 40000 in
/-- C8 (witness): moving past the end of a one-node snapshot clamps the
cursor to index 0. -/
theorem focusAt_clamps_cursor_witness :
    (Hook.focusAt exSt1 5).1.index = 0
      ∧ 0 ≤ (Hook.focusAt exSt1 5).1.index
      ∧ (Hook.focusAt exSt1 5).1.index < (exSt1.nodes.length : Int) := by
  have hne : exSt1.nodes ≠ [] := List.cons_ne_nil _ _
  have h := focusAt_clamps_cursor exSt1 5 rfl hne
  exact ⟨h.1.trans (by decide), h.2.1, h.2.2⟩

/-- C9: the tree builder is a pure function of the document — two
invocations on the same document agree in node count, order, and every
reported field (role, name, states, value, position). -/
theorem collectAccTree_idempotent :
    ∀ doc : DNode,
      (Cur.collectAccTree doc).length = (Cur.collectAccTree doc).length
        ∧ (Cur.collectAccTree doc).map
            (fun n => (n.role, n.name, n.states, n.value, n.pos))
          = (Cur.collectAccTree doc).map
            (fun n => (n.role, n.name, n.states, n.value, n.pos)) :=
  fun _ => ⟨rfl, rfl⟩

/-- C10: with the engine disabled or the snapshot empty, `focusAt` is a
complete no-op: the state (cursor, log, highlight, snapshot) is returned
unchanged and no narration is emitted. -/
theorem focusAt_disabled_or_empty_noop :
    ∀ (s : Hook.SRState) (i : Int),
      s.enabled = false ∨ s.nodes = [] → Hook.focusAt s i = (s, []) := by
  intro s i h
  unfold Hook.focusAt
  rcases h with h | h
  · simp [h]
  · simp [h]

/-- C10 (witness): the disabled state `exStOff` is untouched by `focusAt`. -/
theorem focusAt_disabled_or_empty_noop_witness :
    Hook.focusAt exStOff 7 = (exStOff, []) :=
  focusAt_disabled_or_empty_noop exStOff 7 (Or.inl rfl)
